import Mathlib

/-!
Verification of the `ledmatrix-7-segment-clock` plugin (`manager.py`) against
its natural-language specification.  The Python source is shallowly embedded:
pure helper functions become Lean functions on `Nat`/`Int`/`ℚ`, strings become
`List Char`/`String`, PIL images become explicit pixel grids, and the clearing
policy of `display()` becomes an explicit state-transition function.
-/

set_option autoImplicit false
set_option maxRecDepth 4000

namespace SevenSegClock

/-! ### Python `int(s, 16)` parsing, as used by `_hex_to_rgb` -/

/-- Characters stripped by Python `int()` before parsing (ASCII whitespace). -/
def isPySpace (c : Char) : Bool :=
  c = ' ' || c = '\t' || c = '\n' || c = '\r' || c = '\x0b' || c = '\x0c'

/-- ASCII hexadecimal digit recogniser (`0-9a-fA-F`). -/
def isHexDigitCh (c : Char) : Bool :=
  ('0' ≤ c && c ≤ '9') || ('a' ≤ c && c ≤ 'f') || ('A' ≤ c && c ≤ 'F')

/-- Numeric value of an ASCII hexadecimal digit. -/
def hexDigitVal (c : Char) : Nat :=
  if '0' ≤ c && c ≤ '9' then c.toNat - '0'.toNat
  else if 'a' ≤ c && c ≤ 'f' then c.toNat - 'a'.toNat + 10
  else c.toNat - 'A'.toNat + 10

/-- Continuation of hex-digit parsing: Python allows a single underscore
between two digits (`1_2`), never leading, trailing or doubled. -/
def hexRun : List Char → Nat → Option Nat
  | [], acc => some acc
  | '_' :: c :: rest, acc =>
      if isHexDigitCh c then hexRun rest (acc * 16 + hexDigitVal c) else none
  | ['_'], _ => none
  | c :: rest, acc =>
      if isHexDigitCh c then hexRun rest (acc * 16 + hexDigitVal c) else none

/-- Parse a nonempty run of hex digits (with Python's underscore rule). -/
def pyHexDigits : List Char → Option Nat
  | [] => none
  | c :: rest => if isHexDigitCh c then hexRun rest (hexDigitVal c) else none

/-- Digits part of Python `int(s, 16)`: an optional `0x`/`0X` base marker
(with an optional underscore after it) followed by hex digits. -/
def pyIntHexCore : List Char → Option Nat
  | '0' :: x :: rest =>
      if x = 'x' || x = 'X' then
        match rest with
        | '_' :: rest2 => pyHexDigits rest2
        | _ => pyHexDigits rest
      else pyHexDigits ('0' :: x :: rest)
  | l => pyHexDigits l

/-- Strip ASCII whitespace from both ends, as Python `int()` does. -/
def pyStripChars (l : List Char) : List Char :=
  ((l.dropWhile isPySpace).reverse.dropWhile isPySpace).reverse

/-- Python `int(s, 16)` on a character list: whitespace-stripped, optionally
signed hexadecimal literal; `none` models a raised `ValueError`. -/
def pyIntHex (l : List Char) : Option Int :=
  match pyStripChars l with
  | '+' :: rest => (pyIntHexCore rest).map (fun n => (n : Int))
  | '-' :: rest => (pyIntHexCore rest).map (fun n => -(n : Int))
  | l' => (pyIntHexCore l').map (fun n => (n : Int))

/-- Python slice `l[i : i+n]` (never raises, clamps at the end). -/
def pySlice (l : List Char) (i n : Nat) : List Char :=
  (l.drop i).take n

/-! ### `_hex_to_rgb` and `_rgb_to_hex` (manager.py lines 128-146) -/

/-- Embedding of `_hex_to_rgb`: strip leading `#`s, duplicate a 3-digit form
to 6 digits, parse the three 2-character slices at offsets 0, 2, 4; if any
slice fails to parse (`ValueError`), return white `(255, 255, 255)`. -/
def hex_to_rgb (s : String) : Int × Int × Int :=
  let l0 := s.toList.dropWhile (fun c => c = '#')
  let l := if l0.length = 3 then l0.flatMap (fun c => [c, c]) else l0
  match pyIntHex (pySlice l 0 2), pyIntHex (pySlice l 2 2), pyIntHex (pySlice l 4 2) with
  | some r, some g, some b => (r, g, b)
  | _, _, _ => (255, 255, 255)

/-- Lowercase hexadecimal digit character for a value below 16. -/
def hexChar (n : Nat) : Char :=
  if n < 10 then Char.ofNat ('0'.toNat + n) else Char.ofNat ('a'.toNat + (n - 10))

/-- Hexadecimal digit expansion, fueled so that it reduces in the kernel;
`fuel = n + 1` always suffices because `n / 16 < n` for `n ≥ 16`. -/
def natToHexAux (fuel : Nat) (n : Nat) : List Char :=
  match fuel with
  | 0 => []
  | fuel' + 1 =>
      if n < 16 then [hexChar n]
      else natToHexAux fuel' (n / 16) ++ [hexChar (n % 16)]

/-- Hexadecimal digit expansion of a natural number (most significant first). -/
def natToHexList (n : Nat) : List Char := natToHexAux (n + 1) n

/-- Python format spec `{:02x}`: lowercase hex, zero-padded to width 2. -/
def pyFormat02x (n : Nat) : List Char :=
  let d := natToHexList n
  if d.length < 2 then '0' :: d else d

/-- Embedding of `_rgb_to_hex`: `f"#\x7br:02x\x7d\x7bg:02x\x7d\x7bb:02x\x7d"`. -/
def rgb_to_hex (r g b : Nat) : String :=
  String.mk ('#' :: (pyFormat02x r ++ pyFormat02x g ++ pyFormat02x b))

/-- A hex color string is well formed when, after stripping leading `#`s, it
consists of exactly 3 or exactly 6 hexadecimal digits. -/
def wellFormedHexColor (s : String) : Bool :=
  let l := s.toList.dropWhile (fun c => c = '#')
  (l.length = 3 || l.length = 6) && l.all isHexDigitCh

example : hex_to_rgb ("#FFFFFF") = (255, 255, 255) := by decide
example : hex_to_rgb ("#FFF") = (255, 255, 255) := by decide
example : hex_to_rgb ("#12a4Fe") = (18, 164, 254) := by decide
example : hex_to_rgb ("not-a-color") = (255, 255, 255) := by decide
example : rgb_to_hex 18 164 254 = "#12a4fe" := by decide
example : hex_to_rgb ("ABCDE") = (171, 205, 14) := by decide

/-! ### Round-trip lemmas for the color conversion -/

theorem pyFormat02x_eq_pair (n : Nat) (h : n < 256) :
    pyFormat02x n = [hexChar (n / 16), hexChar (n % 16)] := by
  revert h
  revert n
  decide

theorem pyIntHex_hexChar_pair (a : Nat) (ha : a < 16) (b : Nat) (hb : b < 16) :
    pyIntHex [hexChar a, hexChar b] = some ((16 * a + b : Nat) : Int) := by
  revert hb
  revert b
  revert ha
  revert a
  decide

theorem hexChar_ne_hash (a : Nat) (ha : a < 16) : hexChar a ≠ '#' := by
  revert ha
  revert a
  decide

theorem hex_to_rgb_parse (c1 c2 c3 c4 c5 c6 : Char) (h1 : c1 ≠ '#')
    (vr vg vb : Int)
    (e1 : pyIntHex [c1, c2] = some vr) (e2 : pyIntHex [c3, c4] = some vg)
    (e3 : pyIntHex [c5, c6] = some vb) :
    hex_to_rgb (String.mk ['#', c1, c2, c3, c4, c5, c6]) = (vr, vg, vb) := by
  unfold hex_to_rgb
  simp [pySlice, h1, e1, e2, e3]

/-- C1: for every RGB triple with each channel in `[0, 255]`, converting to
hex with `_rgb_to_hex` and back with `_hex_to_rgb` is the identity. -/
theorem hex_to_rgb_rgb_to_hex_roundtrip (r : Nat) (hr : r ≤ 255)
    (g : Nat) (hg : g ≤ 255) (b : Nat) (hb : b ≤ 255) :
    hex_to_rgb (rgb_to_hex r g b) = ((r : Int), (g : Int), (b : Int)) := by
  have hform : rgb_to_hex r g b =
      String.mk ['#', hexChar (r / 16), hexChar (r % 16), hexChar (g / 16),
        hexChar (g % 16), hexChar (b / 16), hexChar (b % 16)] := by
    unfold rgb_to_hex
    rw [pyFormat02x_eq_pair r (by omega), pyFormat02x_eq_pair g (by omega),
      pyFormat02x_eq_pair b (by omega)]
    rfl
  rw [hform, hex_to_rgb_parse _ _ _ _ _ _ (hexChar_ne_hash _ (by omega)) _ _ _
    (pyIntHex_hexChar_pair _ (by omega) _ (by omega))
    (pyIntHex_hexChar_pair _ (by omega) _ (by omega))
    (pyIntHex_hexChar_pair _ (by omega) _ (by omega))]
  have er : 16 * (r / 16) + r % 16 = r := by omega
  have eg : 16 * (g / 16) + g % 16 = g := by omega
  have eb : 16 * (b / 16) + b % 16 = b := by omega
  rw [er, eg, eb]

/-- C1 witness: round trip at the concrete triple `(18, 164, 254)`. -/
theorem hex_to_rgb_rgb_to_hex_roundtrip_witness :
    hex_to_rgb (rgb_to_hex 18 164 254) = ((18 : Int), (164 : Int), (254 : Int)) :=
  hex_to_rgb_rgb_to_hex_roundtrip 18 (by decide) 164 (by decide) 254 (by decide)

/-- C2 counterexample: the 5-character input `"ABCDE"` is not a well-formed
3- or 6-hex-digit color, yet `_hex_to_rgb` parses its slices `"AB"`, `"CD"`,
`"E"` successfully and returns `(171, 205, 14)` instead of white. -/
theorem hex_to_rgb_malformed_counterexample :
    wellFormedHexColor ("ABCDE") = false ∧
    hex_to_rgb ("ABCDE") = (171, 205, 14) ∧
    hex_to_rgb ("ABCDE") ≠ (255, 255, 255) := by
  decide

/-- C2 amended: `_hex_to_rgb` is guaranteed to return white when the input,
after stripping leading `#`s, has length at most 4 and not exactly 3 (so the
final slice is empty and parsing fails); longer malformed inputs may instead
be parsed from their leading characters. -/
theorem hex_to_rgb_short_malformed_white (s : String)
    (hlen : (s.toList.dropWhile (fun c => c = '#')).length ≤ 4)
    (hne : (s.toList.dropWhile (fun c => c = '#')).length ≠ 3) :
    hex_to_rgb s = (255, 255, 255) := by
  unfold hex_to_rgb
  dsimp only
  rw [if_neg hne]
  have h4 : pySlice (s.toList.dropWhile (fun c => c = '#')) 4 2 = [] := by
    unfold pySlice
    rw [List.drop_eq_nil_of_le hlen]
    rfl
  rw [h4]
  have hnone : pyIntHex [] = none := rfl
  rw [hnone]
  cases pyIntHex (pySlice (s.toList.dropWhile (fun c => c = '#')) 0 2) <;>
    cases pyIntHex (pySlice (s.toList.dropWhile (fun c => c = '#')) 2 2) <;>
    rfl

/-- C2 amended witness: the length-4 input `"1234"` yields white. -/
theorem hex_to_rgb_short_malformed_white_witness :
    hex_to_rgb ("1234") = (255, 255, 255) :=
  hex_to_rgb_short_malformed_white ("1234") (by decide) (by decide)

/-! ### `_format_time` (manager.py lines 148-178) -/

/-- Decimal digit character for a value below 10. -/
def digitChar (n : Nat) : Char := Char.ofNat ('0'.toNat + n)

/-- Two-digit zero-padded decimal rendering, as `strftime` `%H`/`%I`/`%M`
produce for the in-range values a `datetime` can hold. -/
def pad2 (n : Nat) : List Char :=
  if n < 10 then ['0', digitChar n] else [digitChar (n / 10), digitChar (n % 10)]

/-- The 12-hour clock value shown by `strftime("%I")`. -/
def hour12 (h : Nat) : Nat := if h % 12 = 0 then 12 else h % 12

/-- Hour portion of `_format_time`: render `%H` (24-hour) or `%I` (12-hour),
strip one leading zero in 12-hour mode when `has_leading_zero` is false
(lines 163-165), then likewise in 24-hour mode (lines 167-168), transcribed
in source order. -/
def format_hour (is24 lead : Bool) (h : Nat) : List Char :=
  let hs0 := if is24 then pad2 h else pad2 (hour12 h)
  let hs1 :=
    if is24 then hs0
    else if lead = false ∧ hs0.head? = some '0' then hs0.tail else hs0
  if lead = false ∧ is24 = true ∧ hs1.head? = some '0' then hs1.tail else hs1

/-- Formatted time string of `_format_time` (line 178). -/
def time_string (is24 lead : Bool) (h m : Nat) : String :=
  String.mk (format_hour is24 lead h ++ ':' :: pad2 m)

/-- Separator visibility of `_format_time` (lines 172-176): visible unless
the flashing separator is enabled, in which case visible on even seconds. -/
def separator_visible (flash : Bool) (s : Nat) : Bool :=
  if flash then s % 2 == 0 else true

/-- Embedding of `_format_time` on the wall-clock fields of the instant. -/
def format_time (is24 lead flash : Bool) (h m s : Nat) : String × Bool :=
  (time_string is24 lead h m, separator_visible flash s)

/-- Strip one leading `'0'` character from a string, if present. -/
def stripLeadZero (s : String) : String :=
  match s.toList with
  | '0' :: rest => String.mk rest
  | _ => s

example : time_string true false 9 5 = "9:05" := by decide
example : time_string false true 13 5 = "01:05" := by decide
example : time_string true false 0 7 = "0:07" := by decide

theorem time_string_strip (is24 : Bool) (h : Nat) (hh : h < 24)
    (m : Nat) (hm : m < 60) :
    time_string is24 false h m = stripLeadZero (time_string is24 true h m) := by
  revert hm
  revert m
  revert hh
  revert h
  revert is24
  decide

/-- C3: the formatted string is hour, colon, two-digit zero-padded minute,
and with `has_leading_zero = false` the output is exactly the leading-zero
output with one leading `'0'` stripped, in both 12- and 24-hour modes;
at 09:05 this gives `"9:05"`/`"09:05"` and in 12-hour mode at 13:05 it
gives `"1:05"`/`"01:05"`. -/
theorem format_time_string_spec :
    ((format_time true false false 9 5 0).1 = "9:05" ∧
     (format_time true true false 9 5 0).1 = "09:05" ∧
     (format_time false false false 13 5 0).1 = "1:05" ∧
     (format_time false true false 13 5 0).1 = "01:05") ∧
    (∀ is24 lead flash : Bool, ∀ h m s : Nat, h < 24 → m < 60 →
      (format_time is24 lead flash h m s).1 =
        String.mk (format_hour is24 lead h ++
          ':' :: [digitChar (m / 10), digitChar (m % 10)]) ∧
      (format_time is24 false flash h m s).1 =
        stripLeadZero ((format_time is24 true flash h m s).1)) := by
  refine ⟨by decide, ?_⟩
  intro is24 lead flash h m s hh hm
  have hpad : pad2 m = [digitChar (m / 10), digitChar (m % 10)] := by
    unfold pad2
    split
    · have h0 : m / 10 = 0 := by omega
      have h1 : m % 10 = m := by omega
      have h2 : digitChar 0 = '0' := by decide
      rw [h0, h1, h2]
    · rfl
  refine ⟨?_, time_string_strip is24 h hh m hm⟩
  show time_string is24 lead h m = _
  unfold time_string
  rw [hpad]

/-- C3 witness: the general clauses evaluated at hour 9, minute 5. -/
theorem format_time_string_spec_witness :
    (format_time true false true 9 5 7).1 =
      String.mk (format_hour true false 9 ++
        ':' :: [digitChar (5 / 10), digitChar (5 % 10)]) ∧
    (format_time true false true 9 5 7).1 =
      stripLeadZero ((format_time true true true 9 5 7).1) :=
  format_time_string_spec.2 true false true 9 5 7 (by decide) (by decide)

/-- C4: the separator-visible flag is `true` whenever the flashing separator
is disabled, and with flashing enabled it is `true` exactly on even seconds;
in particular seconds 0, 2, 4 give visible and 1, 3, 5 give not visible. -/
theorem format_time_separator_spec :
    (∀ is24 lead : Bool, ∀ h m s : Nat,
      (format_time is24 lead false h m s).2 = true) ∧
    (∀ is24 lead : Bool, ∀ h m s : Nat,
      ((format_time is24 lead true h m s).2 = true ↔ Even s)) ∧
    ((format_time true false true 9 5 0).2 = true ∧
     (format_time true false true 9 5 2).2 = true ∧
     (format_time true false true 9 5 4).2 = true ∧
     (format_time true false true 9 5 1).2 = false ∧
     (format_time true false true 9 5 3).2 = false ∧
     (format_time true false true 9 5 5).2 = false) := by
  refine ⟨fun _ _ _ _ _ => rfl, ?_, by decide⟩
  intro is24 lead h m s
  show separator_visible true s = true ↔ Even s
  unfold separator_visible
  simp [Nat.even_iff]

/-! ### Display tokens and `_calculate_scale_factor` (lines 315-353) -/

/-- A display token: a digit value, the visible separator, or an absent
separator (the `None` entry of the Python `digits` list). -/
inductive DToken
  | digit (n : Nat)
  | sep
  | absent
deriving DecidableEq

/-- Digit glyph width, fixed at construction (line 55). -/
def digit_width : Nat := 13

/-- Digit glyph height, fixed at construction (line 56). -/
def digit_height : Nat := 32

/-- Separator glyph width, fixed at construction (line 57). -/
def separator_width : Nat := 4

/-- Separator glyph height, fixed at construction (line 58). -/
def separator_height : Nat := 14

/-- Unscaled width contribution of one token (lines 331-335): separators
count the separator width, any other non-`None` item counts the digit
width, `None` counts nothing. -/
def token_width : DToken → Nat
  | DToken.sep => separator_width
  | DToken.digit _ => digit_width
  | DToken.absent => 0

/-- The `base_width` accumulated by the loop in `_calculate_scale_factor`. -/
def base_width (digits : List DToken) : Nat :=
  (digits.map token_width).sum

/-- Embedding of `_calculate_scale_factor`; Python floats are modelled as
exact rationals (on every input settled below the double-precision and the
rational computations produce the same comparisons and truncations). -/
def calculate_scale_factor (W H : Nat) (digits : List DToken) : ℚ :=
  let bw : ℚ := (base_width digits : ℚ)
  let bh : ℚ := (digit_height : ℚ)
  let available_width : ℚ := (W : ℚ) * (9 / 10)
  let available_height : ℚ := (H : ℚ) * (9 / 10)
  let scale_width : ℚ := if 0 < bw then available_width / bw else 1
  let scale_height : ℚ := if 0 < bh then available_height / bh else 1
  let scale := min scale_width scale_height
  max (1 / 2) (min 3 scale)

/-- Python `int()` applied to a float: truncation toward zero. -/
def pyTrunc (q : ℚ) : Int := if 0 ≤ q then ⌊q⌋ else -⌊-q⌋

/-- Scaled width contribution of one token in `display` (lines 402-413). -/
def scaled_token_width (scale : ℚ) : DToken → Int
  | DToken.sep => pyTrunc ((separator_width : ℚ) * scale)
  | DToken.digit _ => pyTrunc ((digit_width : ℚ) * scale)
  | DToken.absent => 0

/-- The `total_width` accumulated by `display` lines 408-413. -/
def total_scaled_width (scale : ℚ) (digits : List DToken) : Int :=
  (digits.map (scaled_token_width scale)).sum

/-- Starting X offset of `display` line 416; Python `//` floors. -/
def start_x (W : Nat) (scale : ℚ) (digits : List DToken) : Int :=
  Int.fdiv ((W : Int) - total_scaled_width scale digits) 2

/-- Starting Y offset of `display` line 418. -/
def start_y (H : Nat) (scale : ℚ) : Int :=
  Int.fdiv ((H : Int) - pyTrunc ((digit_height : ℚ) * scale)) 2

/-- Token sequence built by `display` from the formatted string `"12:34"`
with the separator visible. -/
def tokens1234 : List DToken :=
  [DToken.digit 1, DToken.digit 2, DToken.sep, DToken.digit 3, DToken.digit 4]

theorem base_width_tokens1234 : base_width tokens1234 = 56 := by decide

theorem scale_64_32_tokens1234 : calculate_scale_factor 64 32 tokens1234 = 9 / 10 := by
  unfold calculate_scale_factor
  rw [base_width_tokens1234]
  norm_num [digit_height]

theorem total_scaled_width_tokens1234 : total_scaled_width (9 / 10) tokens1234 = 47 := by
  simp only [total_scaled_width, tokens1234, scaled_token_width, List.map_cons,
    List.map_nil, List.sum_cons, List.sum_nil, pyTrunc, digit_width, separator_width]
  norm_num

theorem start_x_tokens1234 : start_x 64 (9 / 10) tokens1234 = 8 := by
  unfold start_x
  rw [total_scaled_width_tokens1234]
  norm_num [Int.fdiv]

/-- C5: for every canvas size and every token sequence of positive base
width, `_calculate_scale_factor` returns the clamp to `[0.5, 3.0]` of the
minimum of the independent width-fit and height-fit factors; the result
lies in `[0.5, 3.0]`, dominates every factor in that range under which the
scaled glyphs fit within 90% of the canvas, and itself fits whenever any
in-range factor fits — so it is the largest fitting factor in the range
whenever one exists. -/
theorem calculate_scale_factor_spec (W H : Nat) (digits : List DToken)
    (hbw : 0 < base_width digits) :
    (1 / 2 ≤ calculate_scale_factor W H digits ∧
      calculate_scale_factor W H digits ≤ 3) ∧
    (∀ t : ℚ, 1 / 2 ≤ t → t ≤ 3 →
      t * (base_width digits : ℚ) ≤ (W : ℚ) * (9 / 10) →
      t * (digit_height : ℚ) ≤ (H : ℚ) * (9 / 10) →
      t ≤ calculate_scale_factor W H digits) ∧
    ((∃ t : ℚ, 1 / 2 ≤ t ∧ t ≤ 3 ∧
        t * (base_width digits : ℚ) ≤ (W : ℚ) * (9 / 10) ∧
        t * (digit_height : ℚ) ≤ (H : ℚ) * (9 / 10)) →
      calculate_scale_factor W H digits * (base_width digits : ℚ) ≤
        (W : ℚ) * (9 / 10) ∧
      calculate_scale_factor W H digits * (digit_height : ℚ) ≤
        (H : ℚ) * (9 / 10)) ∧
    calculate_scale_factor W H digits =
      max (1 / 2) (min 3 (min ((W : ℚ) * (9 / 10) / (base_width digits : ℚ))
        ((H : ℚ) * (9 / 10) / (digit_height : ℚ)))) := by
  have hbwQ : (0 : ℚ) < (base_width digits : ℚ) := by exact_mod_cast hbw
  have hbhQ : (0 : ℚ) < (digit_height : ℚ) := by norm_num [digit_height]
  have keyw : ∀ t : ℚ, t * (base_width digits : ℚ) ≤ (W : ℚ) * (9 / 10) ↔
      t ≤ (W : ℚ) * (9 / 10) / (base_width digits : ℚ) :=
    fun t => (le_div_iff₀ hbwQ).symm
  have keyh : ∀ t : ℚ, t * (digit_height : ℚ) ≤ (H : ℚ) * (9 / 10) ↔
      t ≤ (H : ℚ) * (9 / 10) / (digit_height : ℚ) :=
    fun t => (le_div_iff₀ hbhQ).symm
  have hcalc : calculate_scale_factor W H digits =
      max (1 / 2) (min 3 (min ((W : ℚ) * (9 / 10) / (base_width digits : ℚ))
        ((H : ℚ) * (9 / 10) / (digit_height : ℚ)))) := by
    unfold calculate_scale_factor
    dsimp only
    rw [if_pos hbwQ, if_pos hbhQ]
  rw [hcalc]
  refine ⟨⟨le_max_left _ _, max_le (by norm_num) (min_le_left _ _)⟩, ?_, ?_, rfl⟩
  · intro t h1 h3 hw hh
    exact le_trans (le_min h3 (le_min ((keyw t).mp hw) ((keyh t).mp hh)))
      (le_max_right _ _)
  · rintro ⟨t, ht1, ht3, htw, hth⟩
    have hmin : 1 / 2 ≤ min ((W : ℚ) * (9 / 10) / (base_width digits : ℚ))
        ((H : ℚ) * (9 / 10) / (digit_height : ℚ)) :=
      le_trans ht1 (le_min ((keyw t).mp htw) ((keyh t).mp hth))
    have hsle : max (1 / 2) (min 3 (min ((W : ℚ) * (9 / 10) / (base_width digits : ℚ))
        ((H : ℚ) * (9 / 10) / (digit_height : ℚ)))) ≤
        min ((W : ℚ) * (9 / 10) / (base_width digits : ℚ))
          ((H : ℚ) * (9 / 10) / (digit_height : ℚ)) :=
      max_le hmin (min_le_right _ _)
    exact ⟨(keyw _).mpr (le_trans hsle (min_le_left _ _)),
      (keyh _).mpr (le_trans hsle (min_le_right _ _))⟩

/-- C5 witness: the scale factor for the 64×32 canvas and the `"12:34"`
token sequence lies in `[0.5, 3.0]`. -/
theorem calculate_scale_factor_spec_witness :
    1 / 2 ≤ calculate_scale_factor 64 32 tokens1234 ∧
    calculate_scale_factor 64 32 tokens1234 ≤ 3 :=
  (calculate_scale_factor_spec 64 32 tokens1234 (by decide)).1

/-- C6 counterexample: on the 64×32 canvas with the `"12:34"` tokens the
digit height 32 exceeds 90% of the canvas height (28.8), so the scale
factor is 0.9, not 1.0, and the starting X offset is 8, not 4. -/
theorem layout_64x32_counterexample :
    calculate_scale_factor 64 32 tokens1234 ≠ 1 ∧
    start_x 64 (calculate_scale_factor 64 32 tokens1234) tokens1234 ≠ 4 := by
  rw [scale_64_32_tokens1234, start_x_tokens1234]
  norm_num

/-- C6 amended: for the 64×32 canvas and the 5-token sequence of `"12:34"`
the unscaled width is `4 × 13 + 4 = 56`, but the chosen scale factor is
`0.9` (the height fit `0.9 × 32 / 32`), giving scaled digit width 11,
scaled separator width 3, scaled total width 47, and starting X offset
`(64 - 47) // 2 = 8`. -/
theorem layout_64x32_amended :
    base_width tokens1234 = 56 ∧
    calculate_scale_factor 64 32 tokens1234 = 9 / 10 ∧
    pyTrunc ((digit_width : ℚ) * (9 / 10)) = 11 ∧
    pyTrunc ((separator_width : ℚ) * (9 / 10)) = 3 ∧
    total_scaled_width (9 / 10) tokens1234 = 47 ∧
    start_x 64 (9 / 10) tokens1234 = 8 := by
  refine ⟨base_width_tokens1234, scale_64_32_tokens1234, ?_, ?_,
    total_scaled_width_tokens1234, start_x_tokens1234⟩ <;>
    norm_num [pyTrunc, digit_width, separator_width]

/-! ### Glyph recoloring: `_render_digit` / `_render_separator` (180-297) -/

/-- An RGBA pixel with natural-number channels. -/
structure Pix where
  r : Nat
  g : Nat
  b : Nat
  a : Nat
deriving DecidableEq

/-- A PIL RGBA image, modelled as a row-major pixel grid. -/
structure Img where
  width : Nat
  height : Nat
  data : List (List Pix)
deriving DecidableEq

/-- PIL `getpixel((x, y))` on the model grid: row `y`, column `x`. -/
def getpixel (img : Img) (x y : Nat) : Pix :=
  ((img.data[y]?.getD [])[x]?).getD ⟨0, 0, 0, 0⟩

/-- Per-pixel rule of lines 208-224: a pixel with positive alpha whose RGB
is not exactly black becomes the target color at full opacity (255); every
other pixel becomes fully transparent `(0, 0, 0, 0)`. -/
def recolor_pixel (c : Nat × Nat × Nat) (p : Pix) : Pix :=
  if 0 < p.a ∧ ¬(p.r = 0 ∧ p.g = 0 ∧ p.b = 0) then ⟨c.1, c.2.1, c.2.2, 255⟩
  else ⟨0, 0, 0, 0⟩

/-- The recoloring loop shared by `_render_digit` and `_render_separator`
at scale 1.0 (where the resize branch of lines 227/283 is skipped): a fresh
same-size image whose every in-range pixel is set by `putpixel` according
to `recolor_pixel`; the source image is read through `getpixel` only. -/
def recolor_image (img : Img) (c : Nat × Nat × Nat) : Img :=
  { width := img.width, height := img.height,
    data := (List.range img.height).map (fun y =>
      (List.range img.width).map (fun x => recolor_pixel c (getpixel img x y))) }

/-- `_render_digit` at scale 1.0: digits without a loaded glyph give `None`
(lines 194-196), otherwise the recolored copy of the stored glyph. -/
def render_digit (images : Nat → Option Img) (d : Nat) (c : Nat × Nat × Nat) :
    Option Img :=
  (images d).map (fun img => recolor_image img c)

/-- `_render_separator` at scale 1.0 (lines 256-261). -/
def render_separator (sep : Option Img) (c : Nat × Nat × Nat) : Option Img :=
  sep.map (fun img => recolor_image img c)

/-- C7: recoloring a glyph bitmap yields a new bitmap of the same size in
which every pixel of positive alpha and non-black RGB carries the target
color with alpha 255 and every other pixel is `(0, 0, 0, 0)`; the source
enters only through `getpixel`, so it is never mutated. -/
theorem recolor_image_spec (img : Img) (c : Nat × Nat × Nat) (x y : Nat)
    (hx : x < img.width) (hy : y < img.height) :
    (recolor_image img c).width = img.width ∧
    (recolor_image img c).height = img.height ∧
    getpixel (recolor_image img c) x y =
      (if 0 < (getpixel img x y).a ∧
          ((getpixel img x y).r, (getpixel img x y).g, (getpixel img x y).b) ≠
            (0, 0, 0)
        then (⟨c.1, c.2.1, c.2.2, 255⟩ : Pix) else ⟨0, 0, 0, 0⟩) := by
  refine ⟨rfl, rfl, ?_⟩
  have hrow : (recolor_image img c).data[y]? =
      some ((List.range img.width).map
        (fun x => recolor_pixel c (getpixel img x y))) := by
    unfold recolor_image
    simp [List.getElem?_map, List.getElem?_range hy]
  have hcol : ((List.range img.width).map
      (fun x => recolor_pixel c (getpixel img x y)))[x]? =
      some (recolor_pixel c (getpixel img x y)) := by
    simp [List.getElem?_map, List.getElem?_range hx]
  have hpix : getpixel (recolor_image img c) x y =
      recolor_pixel c (getpixel img x y) := by
    unfold getpixel
    rw [hrow, Option.getD_some, hcol, Option.getD_some]
    exact rfl
  rw [hpix]
  unfold recolor_pixel
  exact if_congr (by simp) rfl rfl

/-- A concrete 1×1 glyph with a semi-transparent white pixel. -/
def sampleGlyph : Img := ⟨1, 1, [[⟨255, 255, 255, 128⟩]]⟩

/-- C7 witness: the recolor specification evaluated on a 1×1 glyph. -/
theorem recolor_image_spec_witness :
    (recolor_image sampleGlyph (10, 20, 30)).width = sampleGlyph.width ∧
    (recolor_image sampleGlyph (10, 20, 30)).height = sampleGlyph.height ∧
    getpixel (recolor_image sampleGlyph (10, 20, 30)) 0 0 =
      (if 0 < (getpixel sampleGlyph 0 0).a ∧
          ((getpixel sampleGlyph 0 0).r, (getpixel sampleGlyph 0 0).g,
            (getpixel sampleGlyph 0 0).b) ≠ (0, 0, 0)
        then (⟨10, 20, 30, 255⟩ : Pix) else ⟨0, 0, 0, 0⟩) :=
  recolor_image_spec sampleGlyph (10, 20, 30) 0 0 (by decide) (by decide)

/-! ### Clearing policy of `display` (lines 355-376) -/

/-- The render state consulted by the clearing policy (lines 50-52). -/
structure RenderState where
  last_displayed_time_str : Option String
  first_display : Bool
deriving DecidableEq

/-- One run of `display` lines 362-376 on an already-updated instant:
whether the canvas is cleared, together with the successor render state
(`time_changed` is the Python `time_str != self.last_displayed_time_str`,
where the stored value may be `None`). -/
def display_clear_step (is24 lead flash : Bool) (st : RenderState)
    (force_clear : Bool) (h m s : Nat) : Bool × RenderState :=
  let time_str := (format_time is24 lead flash h m s).1
  let time_changed : Bool := some time_str != st.last_displayed_time_str
  let should_clear : Bool := st.first_display || force_clear || time_changed
  if should_clear then
    (true,
      { last_displayed_time_str :=
          if time_changed then some time_str else st.last_displayed_time_str,
        first_display := if st.first_display then false else st.first_display })
  else (false, st)

/-- C8: the canvas is cleared exactly when this is the first render, or
force_clear was passed, or the formatted HH:MM string differs from the
recorded one; and after any render, a later render at the same hour and
minute with no force never clears — so a change in separator visibility
alone (blinking seconds) never triggers a clear. -/
theorem display_clear_step_spec (is24 lead flash : Bool) (st : RenderState)
    (force : Bool) (h m s : Nat) :
    ((display_clear_step is24 lead flash st force h m s).1 =
      (st.first_display || force ||
        (some (format_time is24 lead flash h m s).1 !=
          st.last_displayed_time_str))) ∧
    (∀ s' : Nat,
      (display_clear_step is24 lead flash
        ((display_clear_step is24 lead flash st force h m s).2)
        false h m s').1 = false) := by
  constructor
  · unfold display_clear_step
    dsimp only
    split
    · next hcond => exact (hcond).symm
    · next hcond => exact (Bool.not_eq_true _).mp hcond |>.symm
  · intro s'
    have hts : ∀ s'' : Nat, (format_time is24 lead flash h m s'').1 =
        time_string is24 lead h m := fun _ => rfl
    unfold display_clear_step
    dsimp only
    rw [hts s, hts s']
    rcases hf : st.first_display <;> rcases hc : force <;>
      rcases hch : (some (time_string is24 lead h m) !=
        st.last_displayed_time_str) <;>
      simp_all [bne_eq_false_iff_eq]

/-! ### `validate_config` (lines 458-474) -/

/-- A Python value as stored in the plugin configuration mapping. -/
inductive PyVal
  | str (s : String)
  | int (n : Int)
  | bool (b : Bool)
  | dict (entries : List (String × PyVal))
  | none

/-- Python `mapping.get(key, default)` on an association list. -/
def dictGet (entries : List (String × PyVal)) (k : String) (d : PyVal) : PyVal :=
  match entries.find? (fun e => e.1 == k) with
  | Option.some e => e.2
  | Option.none => d

/-- Python exceptions reachable from `validate_config`. -/
inductive PyExc
  | unknownTimeZoneError
  | attributeError
deriving DecidableEq

/-- The call `pytz.timezone(zone)`, modelled from pytz's behaviour: `None`
and unknown zone-name strings raise `UnknownTimeZoneError`; any non-string
argument raises `AttributeError` (pytz immediately calls `zone.upper()`).
The registry of known zone names is a parameter. -/
def pytz_timezone (known : List String) (zone : PyVal) : Except PyExc String :=
  match zone with
  | PyVal.none => Except.error PyExc.unknownTimeZoneError
  | PyVal.str s =>
      if s ∈ known then Except.ok s else Except.error PyExc.unknownTimeZoneError
  | _ => Except.error PyExc.attributeError

/-- `isinstance(v, str)`. -/
def isStr : PyVal → Bool
  | PyVal.str _ => true
  | _ => false

/-- `v.startswith("#")` on a string value. -/
def startsWithHash : PyVal → Bool
  | PyVal.str s => s.toList.head? = some '#'
  | _ => false

/-- Embedding of `validate_config`: logged warnings are collected in a
list; the `try` around `pytz.timezone` catches only
`UnknownTimeZoneError`, so any other exception propagates as an error. -/
def validate_config (known : List String) (config : List (String × PyVal)) :
    Except PyExc (Bool × List String) :=
  let color := dictGet config ("color") (PyVal.str ("#FFFFFF"))
  let warns1 : List String :=
    if !(isStr color && startsWithHash color)
    then ["color should be a hex color"] else []
  match dictGet config ("location") (PyVal.dict []) with
  | PyVal.dict entries =>
      if (entries.find? (fun e => e.1 == "timezone")).isSome then
        match pytz_timezone known (dictGet entries ("timezone") PyVal.none) with
        | Except.ok _ => Except.ok (true, warns1)
        | Except.error PyExc.unknownTimeZoneError =>
            Except.ok (true, warns1 ++ ["Unknown timezone"])
        | Except.error e => Except.error e
      else Except.ok (true, warns1)
  | _ => Except.ok (true, warns1)

/-- The `location.timezone` configuration entry, when the location is a
mapping containing one, is a string or `None` (the shapes whose
`pytz.timezone` behaviour the plugin's `try/except` anticipates). -/
def tz_entry_ok (config : List (String × PyVal)) : Bool :=
  match dictGet config ("location") (PyVal.dict []) with
  | PyVal.dict entries =>
      match dictGet entries ("timezone") PyVal.none with
      | PyVal.none => true
      | PyVal.str _ => true
      | _ => false
  | _ => true

/-- C9 counterexample: a configuration whose `location.timezone` entry is
the integer 123 makes `validate_config` raise: `pytz.timezone` calls
`zone.upper()` and the resulting `AttributeError` is not caught by the
`except UnknownTimeZoneError` at line 471, so it escapes to the caller
instead of producing a pass/fail boolean. -/
theorem validate_config_nonstring_timezone_counterexample :
    validate_config [("UTC" : String)]
      [("location", PyVal.dict [("timezone", PyVal.int 123)])] =
      Except.error PyExc.attributeError := rfl

/-- C9 amended: on every configuration whose `location.timezone` entry,
when present, is a string or `None`, `validate_config` returns the pass
boolean `True` without raising; a malformed color value only contributes a
logged warning.  A non-string entry instead escapes as an uncaught
`AttributeError` from `pytz.timezone`. -/
theorem validate_config_spec (known : List String)
    (config : List (String × PyVal)) (htz : tz_entry_ok config = true) :
    ∃ warns : List String,
      validate_config known config = Except.ok (true, warns) ∧
      ((isStr (dictGet config ("color") (PyVal.str ("#FFFFFF"))) &&
          startsWithHash (dictGet config ("color") (PyVal.str ("#FFFFFF")))) =
            false →
        "color should be a hex color" ∈ warns) := by
  unfold tz_entry_ok at htz
  unfold validate_config
  dsimp only
  rcases hloc : dictGet config ("location") (PyVal.dict []) with s | n | b | entries | _
  case str =>
    exact ⟨_, rfl, fun hmal => by simp [hmal]⟩
  case int =>
    exact ⟨_, rfl, fun hmal => by simp [hmal]⟩
  case bool =>
    exact ⟨_, rfl, fun hmal => by simp [hmal]⟩
  case none =>
    exact ⟨_, rfl, fun hmal => by simp [hmal]⟩
  case dict =>
    dsimp only
    by_cases hfind : (entries.find? (fun e => e.1 == "timezone")).isSome
    · rw [if_pos hfind]
      rcases htzv : dictGet entries ("timezone") PyVal.none with ts | tn | tb | te | _
      · by_cases hk : ts ∈ known
        · rw [show pytz_timezone known (PyVal.str ts) = Except.ok ts from by
            simp [pytz_timezone, hk]]
          exact ⟨_, rfl, fun hmal => by simp [hmal]⟩
        · rw [show pytz_timezone known (PyVal.str ts) =
              Except.error PyExc.unknownTimeZoneError from by
            simp [pytz_timezone, hk]]
          refine ⟨_, rfl, fun hmal => ?_⟩
          exact List.mem_append_left _ (by simp [hmal])
      · rw [hloc] at htz
        simp [htzv] at htz
      · rw [hloc] at htz
        simp [htzv] at htz
      · rw [hloc] at htz
        simp [htzv] at htz
      · rw [show pytz_timezone known PyVal.none =
            Except.error PyExc.unknownTimeZoneError from rfl]
        refine ⟨_, rfl, fun hmal => ?_⟩
        exact List.mem_append_left _ (by simp [hmal])
    · rw [if_neg (by simpa using hfind)]
      exact ⟨_, rfl, fun hmal => by simp [hmal]⟩

/-- C9 witness: a configuration with a non-string color and an unknown
timezone string validates to `True` with warnings, without raising. -/
theorem validate_config_spec_witness :
    ∃ warns : List String,
      validate_config ["UTC"]
        [("color", PyVal.int 5),
         ("location", PyVal.dict [("timezone", PyVal.str ("Mars"))])] =
        Except.ok (true, warns) ∧
      ((isStr (dictGet
            [("color", PyVal.int 5),
             ("location", PyVal.dict [("timezone", PyVal.str ("Mars"))])]
            "color" (PyVal.str ("#FFFFFF"))) &&
          startsWithHash (dictGet
            [("color", PyVal.int 5),
             ("location", PyVal.dict [("timezone", PyVal.str ("Mars"))])]
            "color" (PyVal.str ("#FFFFFF")))) = false →
        "color should be a hex color" ∈ warns) :=
  validate_config_spec ["UTC"]
    [("color", PyVal.int 5),
     ("location", PyVal.dict [("timezone", PyVal.str ("Mars"))])]
    (by decide)

/-! ### `update` and the cached-time invariant (lines 299-313, 355-363) -/

/-- A Python `datetime`: wall-clock fields plus the optional `tzinfo`
(`none` would be a naive value). -/
structure PyDatetime where
  tzinfo : Option String
  hour : Nat
  minute : Nat
  second : Nat
deriving DecidableEq

/-- `datetime.now(tz)`: the wall-clock reading (an oracle input) localized
to `tz` — always timezone-aware. -/
def datetime_now (tz : String) (wall : Nat × Nat × Nat) : PyDatetime :=
  ⟨some tz, wall.1, wall.2.1, wall.2.2⟩

/-- `dt.astimezone(tz)`: the same instant with `tzinfo` replaced by `tz`;
the zone-shifted wall-clock fields are an oracle input. -/
def astimezone (tz : String) (shifted : Nat × Nat × Nat) : PyDatetime :=
  ⟨some tz, shifted.1, shifted.2.1, shifted.2.2⟩

/-- The plugin state that `update()` writes and `display()` reads. -/
structure TimeState where
  timezone : String
  current_time : Option PyDatetime
deriving DecidableEq

/-- Embedding of `update()` (lines 299-313): the `try` path stores
`datetime.now(pytz.UTC).astimezone(self.timezone)`; the `except` path
(`ok = false`) stores the fallback `datetime.now(self.timezone)`.  Both
paths assign `current_time`. -/
def update_step (st : TimeState) (ok : Bool)
    (wall_utc wall_local : Nat × Nat × Nat) : TimeState :=
  if ok then
    { st with current_time := some (astimezone st.timezone wall_local) }
  else
    { st with current_time := some (datetime_now st.timezone wall_local) }

/-- The instant `display()` goes on to format (lines 359-363): when
`current_time` is `None`, `display()` first calls `update()` itself. -/
def display_time_source (st : TimeState) (ok : Bool)
    (wall_utc wall_local : Nat × Nat × Nat) : Option PyDatetime :=
  -- `wall_utc` mirrors the `datetime.now(pytz.UTC)` reading of `update()`.
  (if st.current_time = Option.none then update_step st ok wall_utc wall_local
   else st).current_time

/-- C10: every call to `update()` leaves `current_time` holding a
timezone-aware datetime on both its success and exception paths, and the
instant `display()` formats is never `None` — if `current_time` is unset,
`display()` runs `update()` first. -/
theorem current_time_never_none (st : TimeState) (ok : Bool)
    (wu wl : Nat × Nat × Nat) :
    (∃ dt : PyDatetime, (update_step st ok wu wl).current_time = some dt ∧
      dt.tzinfo = some st.timezone) ∧
    (∃ dt : PyDatetime, display_time_source st ok wu wl = some dt) := by
  constructor
  · unfold update_step
    rcases ok <;>
      exact ⟨_, rfl, rfl⟩
  · unfold display_time_source
    rcases hcur : st.current_time with _ | dt
    · rw [if_pos rfl]
      unfold update_step
      rcases ok <;> exact ⟨_, rfl⟩
    · rw [if_neg (by simp)]
      exact ⟨dt, hcur⟩

end SevenSegClock
